import Mathlib

/-!
Verification development for `cmd/gomod-zip/zip.go` of kcp-dev/publishing-bot.

The program is a linear CLI pipeline: validate the two flags, parse the
pseudo-version with `semver.Parse` (blang/semver/v4) after a
`strings.TrimPrefix(v, "v")`, compute the source and cache directories from
`$GOPATH`, load and re-stamp the `go.mod` descriptor, and write the zip built
by `modzip.CreateFromDir` to `<cacheDir>/<pseudo-version>.zip` with mode 0644.

The shallow embedding below transcribes `main`, `getModuleFile` and
`createZipArchive` over an explicit environment `Env` that carries the flag
values, `$GOPATH`, and the external capabilities (file open/read, module-file
parsing, zip construction, file write) as functions.  Each run produces an
`Outcome` (success, or a fatal termination with a single diagnostic, the
`glog.Fatalf` calls) together with the list of file-system events performed.
-/

namespace GomodZip

/-- Does the character list start with `c`? -/
def chStarts (c : Char) : List Char → Bool
  | x :: _ => x = c
  | [] => false

/-- Model of `strings.Split` for a one-character separator, on character lists
(`Split("", sep)` is `[""]`). -/
def chSplit (sep : Char) : List Char → List (List Char)
  | [] => [[]]
  | x :: xs =>
    match chSplit sep xs with
    | h :: t => if x = sep then [] :: h :: t else (x :: h) :: t
    | [] => [[]]

/-- Model of `strings.Join` for a one-character separator, on character lists. -/
def chJoin (sep : Char) : List (List Char) → List Char
  | [] => []
  | [l] => l
  | l :: l2 :: ls => l ++ sep :: chJoin sep (l2 :: ls)

/-- Model of `strings.TrimPrefix(s, "v")`: drop one leading `"v"` when present. -/
def goTrimV (s : String) : String :=
  match s.data with
  | 'v' :: rest => String.mk rest
  | _ => s

/-! ### Model of blang/semver/v4 `Parse`

The tool calls `semver.Parse` from github.com/blang/semver/v4; the following
definitions transcribe that parser (`containsOnly`, `hasLeadingZeroes`,
`strconv.ParseUint` with the 64-bit bound, `SplitN(s, ".", 3)`, the `+` and
`-` splits of the third component, `NewPRVersion`, and the build-metadata
checks). -/

def svNumbers : String := "0123456789"

def svAlphas : String := "abcdefghijklmnopqrstuvwxyzABCDEFGHIJKLMNOPQRSTUVWXYZ-"

def svAlphanum : String := svAlphas ++ svNumbers

/-- blang/semver `containsOnly`: every rune of `s` belongs to `set`. -/
def containsOnly (s set : String) : Bool :=
  s.data.all fun c => set.data.contains c

/-- blang/semver `hasLeadingZeroes`. -/
def hasLeadingZeroes (s : String) : Bool :=
  decide (s.data.length > 1) && chStarts '0' s.data

def digitsToNat : List Char → Nat → Nat
  | [], acc => acc
  | c :: cs, acc => digitsToNat cs (acc * 10 + (c.toNat - 48))

/-- Model of `strconv.ParseUint(s, 10, 64)`: error on empty input, on a non-digit rune,
and on overflow past `2^64 - 1`. -/
def parseUint64 (s : String) : Except String Nat :=
  if s = "" then .error "invalid syntax"
  else if !containsOnly s svNumbers then .error "invalid syntax"
  else
    let n := digitsToNat s.data 0
    if n < 2 ^ 64 then .ok n else .error "value out of range"

inductive PRVersion where
  | num (n : Nat)
  | alphaNum (s : String)
deriving DecidableEq

structure SemVer where
  major : Nat
  minor : Nat
  patch : Nat
  pre : List PRVersion
  build : List String
deriving DecidableEq

/-- Model of `strings.SplitN(s, sep, n)` for positive `n` and a one-character
separator: at most `n` parts, the last one the unsplit remainder. -/
def goSplitN (s : String) (sep : Char) (n : Nat) : List String :=
  let parts := chSplit sep s.data
  (if parts.length ≤ n then parts
   else parts.take (n - 1) ++ [chJoin sep (parts.drop (n - 1))]).map String.mk

/-- Split a character list at the first occurrence of `c`
(`strings.IndexRune` followed by the two slicings). -/
def breakFirst (c : Char) : List Char → Option (List Char × List Char)
  | [] => none
  | x :: xs =>
    if x = c then some ([], xs)
    else (breakFirst c xs).map fun p => (x :: p.1, p.2)

/-- blang/semver `NewPRVersion`. -/
def newPRVersion (s : String) : Except String PRVersion :=
  if s = "" then .error "Prerelease is empty"
  else if containsOnly s svNumbers then
    if hasLeadingZeroes s then
      .error ("Numeric PreRelease version must not contain leading zeroes " ++ s)
    else (parseUint64 s).map .num
  else if containsOnly s svAlphanum then .ok (.alphaNum s)
  else .error ("Invalid character(s) found in prerelease " ++ s)

def parsePRList : List String → Except String (List PRVersion)
  | [] => .ok []
  | s :: rest => do
    let p ← newPRVersion s
    let ps ← parsePRList rest
    .ok (p :: ps)

def checkBuildList : List String → Except String Unit
  | [] => .ok ()
  | s :: rest =>
    if s = "" then .error "Build meta data is empty"
    else if !containsOnly s svAlphanum then
      .error ("Invalid character(s) found in build meta data " ++ s)
    else checkBuildList rest

/-- Check and parse one numeric version component (major, minor, patch):
digits only, no leading zeroes, 64-bit range. -/
def parseNumComponent (what s : String) : Except String Nat :=
  if !containsOnly s svNumbers then
    .error ("Invalid character(s) found in " ++ what ++ " number " ++ s)
  else if hasLeadingZeroes s then
    .error (what ++ " number must not contain leading zeroes " ++ s)
  else parseUint64 s

/-- Model of blang/semver/v4 `Parse`. -/
def semverParse (s : String) : Except String SemVer :=
  if s = "" then .error "Version string empty"
  else
    match goSplitN s '.' 3 with
    | [majS, minS, patchRest] => do
      let major ← parseNumComponent "major" majS
      let minor ← parseNumComponent "minor" minS
      let (patchPre, build) :=
        match breakFirst '+' patchRest.data with
        | some p => (String.mk p.1, (chSplit '.' p.2).map String.mk)
        | none => (patchRest, [])
      let (patchS, pre) :=
        match breakFirst '-' patchPre.data with
        | some p => (String.mk p.1, (chSplit '.' p.2).map String.mk)
        | none => (patchPre, [])
      let patch ← parseNumComponent "patch" patchS
      let preList ← parsePRList pre
      let _ ← checkBuildList build
      .ok ⟨major, minor, patch, preList, build⟩
    | _ => .error "No Major.Minor.Patch elements found"

/-! ### Model of `path/filepath` `Clean` and `Join` (Unix rules) -/

/-- The segment loop of `filepath.Clean`: drop empty and `"."` segments,
resolve `".."` against the output stack (a rooted path drops `".."` at the
root, a relative path keeps it). -/
def cleanLoop (rooted : Bool) (acc : List String) : List String → List String
  | [] => acc.reverse
  | seg :: rest =>
    if seg = "" ∨ seg = "." then cleanLoop rooted acc rest
    else if seg = ".." then
      match acc with
      | [] => if rooted then cleanLoop rooted [] rest else cleanLoop rooted [".."] rest
      | top :: accRest =>
        if top = ".." then cleanLoop rooted (".." :: top :: accRest) rest
        else cleanLoop rooted accRest rest
    else cleanLoop rooted (seg :: acc) rest

/-- Model of `filepath.Clean` for Unix paths (segment-level formulation). -/
def goClean (path : String) : String :=
  if path = "" then "."
  else
    let rooted := chStarts '/' path.data
    let segs := cleanLoop rooted [] ((chSplit '/' path.data).map String.mk)
    let out := String.mk (chJoin '/' (segs.map String.data))
    if rooted then "/" ++ out
    else if out = "" then "." else out

/-- Model of `filepath.Join(a, b)`: join the non-empty elements with `"/"` and `Clean`
the result; all-empty input yields `""`. -/
def goJoin (a b : String) : String :=
  if a = "" then
    if b = "" then "" else goClean b
  else if b = "" then goClean a
  else goClean (a ++ "/" ++ b)

/-! ### The data model and the environment -/

/-- Model of `module.Version`: an import path plus a version string
(`moduleFile.Module.Mod` in the source). -/
structure ModuleIdent where
  path : String
  version : String
deriving DecidableEq

/-- The part of `modfile.File` the program touches: the optional `Module`
declaration (`moduleFile.Module`, whose `Mod` is the identity). -/
structure GoModFile where
  module : Option ModuleIdent
deriving DecidableEq

/-- Outcome of one `os.WriteFile(path, bytes, perm)` call.  `os.WriteFile`
opens the file with `O_WRONLY|O_CREATE|O_TRUNC` before writing, so the file
is created (or truncated) as soon as the open succeeds:
* `success`: full write, no error;
* `openFailed`: the open itself failed — the file was NOT created;
* `writeFailed written e`: the open succeeded but the write stopped after
  the bytes `written` — the file exists with partial contents;
* `closeFailed e`: the write completed but `Close` reported an error — the
  file exists with the full contents, yet `WriteFile` returns the error. -/
inductive WriteResult where
  | success
  | openFailed (e : String)
  | writeFailed (written : List Nat) (e : String)
  | closeFailed (e : String)
deriving DecidableEq

/-- One file-system action of a run.  `write` records `os.WriteFile`'s path,
requested contents and permission bits together with its `WriteResult` (which
tells whether, and with what contents, the file exists afterwards).
`readTree` records `modzip.CreateFromDir` walking the source directory for
the given module identity. -/
inductive IOEvent where
  | openRead (path : String)
  | readTree (mod : ModuleIdent) (dir : String)
  | write (path : String) (contents : List Nat) (perm : Nat) (res : WriteResult)
deriving DecidableEq

/-- Result of a run: `glog.Fatalf` terminates the process after emitting the
single diagnostic it is given; otherwise `main` returns normally. -/
inductive Outcome where
  | fatal (msg : String)
  | success
deriving DecidableEq

/-- The invocation environment: the two flag values, `$GOPATH`, and the
external capabilities as deterministic functions of their inputs.  `runId`
stands for every piece of ambient state the program does not read (time,
process id, unrelated environment variables): two runs "with identical
inputs and an unchanged source tree" are two `Env`s that may differ in
`runId` only. -/
structure Env where
  packageName : String
  pseudoVersion : String
  gopath : String
  /-- Model of `os.Open` at a path: `some e` marks an open failure with
  message `e`. -/
  openFile : String → Option String
  /-- Model of `io.ReadAll` of the file at a path. -/
  readAll : String → Except String (List Nat)
  /-- Model of `modfile.Parse(packagePath, bytes, nil)`. -/
  parseModFile : String → List Nat → Except String GoModFile
  /-- Model of `modzip.CreateFromDir(&buf, mod, dir)`: the zip bytes, or an error. -/
  createFromDir : ModuleIdent → String → Except String (List Nat)
  /-- Model of `os.WriteFile(path, bytes, perm)`: any result other than
  `success` makes `WriteFile` return an error, but the file exists afterwards
  in every case except `openFailed` (see `WriteResult`). -/
  writeFile : String → List Nat → Nat → WriteResult
  runId : Nat

/-- The source directory `$GOPATH/src/<package-name>` (the `packagePath` of `main`). -/
def packagePathOf (gopath pkg : String) : String :=
  gopath ++ "/src/" ++ pkg

/-- The `cacheDir` of `main`:
`$GOPATH/pkg/mod/cache/download/<package-name>/@v`, with `/v<major>`
appended when the parsed major version is at least 2. -/
def cacheDirOf (gopath pkg : String) (major : Nat) : String :=
  let base := gopath ++ "/pkg/mod/cache/download/" ++ pkg ++ "/@v"
  if major ≥ 2 then base ++ "/v" ++ toString major else base

/-- The descriptor path `filepath.Join(packagePath, "go.mod")`. -/
def goModPathOf (gopath pkg : String) : String :=
  goJoin (packagePathOf gopath pkg) "go.mod"

/-! ### Transcription of the program -/

/-- Transcription of `getModuleFile(packagePath, version)`: open and read
`packagePath/go.mod`, parse it, require a `module` declaration, and
overwrite its version with `version`.  Also returns the file-system events
performed. -/
def getModuleFile (env : Env) (packagePath version : String) :
    Except String GoModFile × List IOEvent :=
  let goModPath := goJoin packagePath "go.mod"
  let evs := [IOEvent.openRead goModPath]
  match env.openFile goModPath with
  | some e => (.error ("error opening " ++ goModPath ++ ": " ++ e), evs)
  | none =>
    match env.readAll goModPath with
    | .error e => (.error ("error reading " ++ goModPath ++ ": " ++ e), evs)
    | .ok moduleBytes =>
      match env.parseModFile packagePath moduleBytes with
      | .error e => (.error ("error parsing module file: " ++ e), evs)
      | .ok moduleFile =>
        match moduleFile.module with
        | none => (.error "parsed module should not be nil", evs)
        | some m => (.ok ⟨some ⟨m.path, version⟩⟩, evs)

/-- Transcription of `createZipArchive(packagePath, moduleFile, outputDirectory)`: build the
zip in memory from the source directory and write it to
`outputDirectory/<version>.zip` with mode 0644.  (`main` only passes
descriptors whose `module` is set; a `none` here would be a nil
dereference in Go, modelled by a default identity.) -/
def createZipArchive (env : Env) (packagePath : String) (moduleFile : GoModFile)
    (outputDirectory : String) : Except String Unit × List IOEvent :=
  let m := moduleFile.module.getD ⟨"", ""⟩
  let zipFilePath := goJoin outputDirectory (m.version ++ ".zip")
  match env.createFromDir m packagePath with
  | .error e => (.error ("create zip from dir: " ++ e), [.readTree m packagePath])
  | .ok zipContents =>
    match env.writeFile zipFilePath zipContents 0o644 with
    | .success =>
      (.ok (), [.readTree m packagePath, .write zipFilePath zipContents 0o644 .success])
    | .openFailed e =>
      (.error ("writing zip file: " ++ e),
        [.readTree m packagePath, .write zipFilePath zipContents 0o644 (.openFailed e)])
    | .writeFailed w e =>
      (.error ("writing zip file: " ++ e),
        [.readTree m packagePath, .write zipFilePath zipContents 0o644 (.writeFailed w e)])
    | .closeFailed e =>
      (.error ("writing zip file: " ++ e),
        [.readTree m packagePath, .write zipFilePath zipContents 0o644 (.closeFailed e)])

/-- Transcription of `main`: flag validation, pseudo-version parsing, path computation, then
the descriptor load and the archive write; every error is a
`glog.Fatalf` with the wrapped message. -/
def runMain (env : Env) : Outcome × List IOEvent :=
  if env.packageName = "" then (.fatal "package-name cannot be empty", [])
  else if env.pseudoVersion = "" then (.fatal "pseudo-version cannot be empty", [])
  else
    match semverParse (goTrimV env.pseudoVersion) with
    | .error e => (.fatal ("error parsing pseudo-version: " ++ e), [])
    | .ok pseudoSemver =>
      let packagePath := packagePathOf env.gopath env.packageName
      let cacheDir := cacheDirOf env.gopath env.packageName pseudoSemver.major
      match getModuleFile env packagePath env.pseudoVersion with
      | (.error e, evs) => (.fatal ("error getting module file: " ++ e), evs)
      | (.ok moduleFile, evs) =>
        match createZipArchive env packagePath moduleFile cacheDir with
        | (.error e, evs2) => (.fatal ("error creating zip archive: " ++ e), evs ++ evs2)
        | (.ok _, evs2) => (.success, evs ++ evs2)

/-- The paths of the output files that exist after the events: every write
whose open succeeded created the file (`O_CREATE|O_TRUNC`), whether or not
the write then completed. -/
def producedFiles (evs : List IOEvent) : List String :=
  evs.filterMap fun e =>
    match e with
    | .write p _ _ .success => some p
    | .write p _ _ (.writeFailed _ _) => some p
    | .write p _ _ (.closeFailed _) => some p
    | _ => none

/-- The paths of output files left behind by a FAILED `os.WriteFile`: the
write stopped partway or the close failed, but the file had already been
created. -/
def writeFailureArtifacts (evs : List IOEvent) : List String :=
  evs.filterMap fun e =>
    match e with
    | .write p _ _ (.writeFailed _ _) => some p
    | .write p _ _ (.closeFailed _) => some p
    | _ => none

/-- Did the run terminate through `glog.Fatalf`? -/
def Outcome.isFatal : Outcome → Bool
  | .fatal _ => true
  | .success => false

/-- The output path `filepath.Join(cacheDir, version + ".zip")` computed by
`createZipArchive`. -/
def zipPathOf (gopath pkg ver : String) (major : Nat) : String :=
  goJoin (cacheDirOf gopath pkg major) (ver ++ ".zip")

deriving instance DecidableEq for Except

/-- A run environment for `example.com/foo` at `v2.3.1` in `$GOPATH = /go`,
where every external capability succeeds: `go.mod` opens and reads fine,
parses to a descriptor declaring module `example.com/foo` at an old version,
the zip builder returns four bytes, and the write succeeds. -/
def envV2 : Env where
  packageName := "example.com/foo"
  pseudoVersion := "v2.3.1"
  gopath := "/go"
  openFile := fun _ => none
  readAll := fun _ => .ok [109, 111]
  parseModFile := fun _ _ => .ok ⟨some ⟨"example.com/foo", "v0.0.0-old"⟩⟩
  createFromDir := fun _ _ => .ok [80, 75, 3, 4]
  writeFile := fun _ _ _ => .success
  runId := 0

/-- A second run of `envV2`: identical inputs and file-system behavior, but
different ambient state. -/
def envV2Again : Env := { envV2 with runId := 1 }

/-- The same invocation with a pseudo-version that carries no leading `v`. -/
def envNoV : Env := { envV2 with pseudoVersion := "1.0.0" }

/-- The same invocation with a pseudo-version at major version 1. -/
def envMajor1 : Env := { envV2 with pseudoVersion := "v1.0.0" }

/-- The same invocation with a pseudo-version that is not a semantic version. -/
def envBadVer : Env := { envV2 with pseudoVersion := "not-a-version" }

/-- The same invocation with an empty `--package-name`. -/
def envNoPkg : Env := { envV2 with packageName := "" }

/-- The same invocation where opening `go.mod` fails. -/
def envOpenFail : Env :=
  { envV2 with openFile := fun _ => some "no such file or directory" }

/-- The same invocation where the parsed `go.mod` has no `module` directive. -/
def envNilModule : Env := { envV2 with parseModFile := fun _ _ => .ok ⟨none⟩ }

/-- The same invocation where `os.WriteFile` fails partway (say the disk
fills): the output file has been created and holds one byte when the error
is returned. -/
def envWriteFail : Env :=
  { envV2 with writeFile := fun _ _ _ => .writeFailed [80] "disk full" }

/-! ### Helper lemmas -/

theorem append_ne_empty_left (a b : String) (ha : a ≠ "") : a ++ b ≠ "" := by
  intro h
  apply ha
  have hl := congrArg String.length h
  rw [String.length_append] at hl
  have hz : a.length = 0 := by
    have : String.length "" = 0 := rfl
    omega
  have hd : a.data = [] := List.length_eq_zero.mp hz
  exact String.ext hd

theorem append_ne_empty_right (a b : String) (hb : b ≠ "") : a ++ b ≠ "" := by
  intro h
  apply hb
  have hl := congrArg String.length h
  rw [String.length_append] at hl
  have hz : b.length = 0 := by
    have : String.length "" = 0 := rfl
    omega
  have hd : b.data = [] := List.length_eq_zero.mp hz
  exact String.ext hd

theorem cacheDirOf_ne_empty (g p : String) (m : Nat) : cacheDirOf g p m ≠ "" := by
  unfold cacheDirOf
  split
  · exact append_ne_empty_left _ _ (append_ne_empty_right _ _ (by decide))
  · exact append_ne_empty_right _ _ (by decide)

theorem goJoin_of_ne (a b : String) (ha : a ≠ "") (hb : b ≠ "") :
    goJoin a b = goClean (a ++ "/" ++ b) := by
  simp [goJoin, ha, hb]

/-- With clean inputs, the zip output path is the plain concatenation
`cacheDir ++ "/" ++ version ++ ".zip"`. -/
theorem zipPathOf_of_clean (g p ver : String) (m : Nat)
    (hclean : goClean (cacheDirOf g p m ++ "/" ++ (ver ++ ".zip"))
      = cacheDirOf g p m ++ "/" ++ (ver ++ ".zip")) :
    zipPathOf g p ver m = cacheDirOf g p m ++ "/" ++ (ver ++ ".zip") := by
  rw [zipPathOf, goJoin_of_ne _ _ (cacheDirOf_ne_empty g p m)
    (append_ne_empty_right _ _ (by decide)), hclean]

/-- Whatever happens inside `getModuleFile`, its only file-system event is
the attempt to open `packagePath/go.mod`. -/
theorem getModuleFile_events (env : Env) (pp v : String) :
    (getModuleFile env pp v).2 = [.openRead (goJoin pp "go.mod")] := by
  simp only [getModuleFile]
  repeat' split
  all_goals rfl

/-- A `getModuleFile` run on a readable, parsable descriptor with a module
declaration: the returned descriptor carries the caller's version. -/
theorem getModuleFile_success (env : Env) (pp v : String) (m : ModuleIdent)
    (bs : List Nat)
    (hopen : env.openFile (goJoin pp "go.mod") = none)
    (hread : env.readAll (goJoin pp "go.mod") = .ok bs)
    (hmod : env.parseModFile pp bs = .ok ⟨some m⟩) :
    getModuleFile env pp v
      = (.ok ⟨some ⟨m.path, v⟩⟩, [.openRead (goJoin pp "go.mod")]) := by
  simp [getModuleFile, hopen, hread, hmod]

/-- A fully successful `createZipArchive`: one read of the source tree, one
write of the zip bytes at `Join(outputDirectory, version + ".zip")`, 0644. -/
theorem createZipArchive_success (env : Env) (pp dir : String) (m : ModuleIdent)
    (zb : List Nat)
    (hzip : env.createFromDir m pp = .ok zb)
    (hwrite : env.writeFile (goJoin dir (m.version ++ ".zip")) zb 0o644 = .success) :
    createZipArchive env pp ⟨some m⟩ dir
      = (.ok (), [.readTree m pp,
          .write (goJoin dir (m.version ++ ".zip")) zb 0o644 .success]) := by
  simp [createZipArchive, hzip, hwrite]

/-- In a failing `createZipArchive`, the files that exist afterwards are
exactly the ones left behind by a failed `os.WriteFile`: none when the zip
builder or the open failed, the created-but-unfinished output file when the
write or the close did. -/
theorem createZipArchive_error_artifacts (env : Env) (pp dir : String)
    (mf : GoModFile) (e : String) (evs : List IOEvent)
    (h : createZipArchive env pp mf dir = (.error e, evs)) :
    producedFiles evs = writeFailureArtifacts evs := by
  simp only [createZipArchive] at h
  repeat' split at h
  all_goals
    first
      | (rw [Prod.mk.injEq] at h
         rcases h with ⟨-, h2⟩
         subst h2
         rfl)
      | simp at h

theorem producedFiles_append (a b : List IOEvent) :
    producedFiles (a ++ b) = producedFiles a ++ producedFiles b := by
  simp [producedFiles]

theorem writeFailureArtifacts_append (a b : List IOEvent) :
    writeFailureArtifacts (a ++ b)
      = writeFailureArtifacts a ++ writeFailureArtifacts b := by
  simp [writeFailureArtifacts]

/-! ### The claims -/

/-- C3: whenever `getModuleFile(sourceDir, v)` returns a descriptor, the
descriptor's declared version field is exactly `v`, regardless of what the
descriptor file originally recorded (the quantification over `env` covers
every possible original content). -/
theorem c3_version_overwritten (env : Env) (packagePath version : String)
    (mf : GoModFile) (evs : List IOEvent)
    (h : getModuleFile env packagePath version = (.ok mf, evs)) :
    mf.module.map ModuleIdent.version = some version := by
  simp only [getModuleFile] at h
  repeat' split at h
  all_goals simp_all
  rcases h with ⟨h1, -⟩
  subst h1
  exact ⟨_, rfl, rfl⟩

/-- Witness for C3 at a concrete environment. -/
theorem c3_version_overwritten_witness :
    (⟨some ⟨"example.com/foo", "v2.3.1"⟩⟩ : GoModFile).module.map ModuleIdent.version
      = some "v2.3.1" :=
  c3_version_overwritten envV2 (packagePathOf "/go" "example.com/foo") "v2.3.1"
    ⟨some ⟨"example.com/foo", "v2.3.1"⟩⟩
    [.openRead (goJoin (packagePathOf "/go" "example.com/foo") "go.mod")] (by decide)

/-- C4, counterexample: on the output-write-failure path the claim fails.
`os.WriteFile` creates (or truncates) the file before writing, so when the
write stops partway the run is fatal — with the single wrapped diagnostic —
yet the output zip file exists at the output path. -/
theorem c4_write_failure_counterexample :
    ((runMain envWriteFail).1).isFatal = true
    ∧ (runMain envWriteFail).1
      = .fatal ("error creating zip archive: " ++ ("writing zip file: " ++ "disk full"))
    ∧ producedFiles (runMain envWriteFail).2
      = ["/go/pkg/mod/cache/download/example.com/foo/@v/v2/v2.3.1.zip"] := by
  decide

/-- C4, amended: every failure path terminates fatally after the single
wrapped diagnostic, and the output files that exist after a failing run are
exactly those left behind by a failed `os.WriteFile` — so on every failure
path before or at the zip build (empty flag, version-parse failure,
descriptor open/read/parse failure, missing module declaration,
archive-builder failure) no output file exists, while an output-write
failure can leave the already-created zip file behind. -/
theorem c4_fatal_artifacts_only_from_failed_write (env : Env)
    (h : ((runMain env).1).isFatal = true) :
    producedFiles (runMain env).2 = writeFailureArtifacts (runMain env).2 := by
  by_cases h1 : env.packageName = ""
  · simp [runMain, h1, producedFiles, writeFailureArtifacts]
  by_cases h2 : env.pseudoVersion = ""
  · simp [runMain, h1, h2, producedFiles, writeFailureArtifacts]
  rcases hp : semverParse (goTrimV env.pseudoVersion) with e | sv
  · simp [runMain, h1, h2, hp, producedFiles, writeFailureArtifacts]
  rcases hg : getModuleFile env (packagePathOf env.gopath env.packageName)
      env.pseudoVersion with ⟨res, evs⟩
  have hevs : evs
      = [.openRead (goJoin (packagePathOf env.gopath env.packageName) "go.mod")] := by
    have h2 := getModuleFile_events env (packagePathOf env.gopath env.packageName)
      env.pseudoVersion
    rw [hg] at h2
    exact h2
  rcases res with e | mf
  · have hrun : runMain env = (.fatal ("error getting module file: " ++ e), evs) := by
      simp [runMain, h1, h2, hp, hg]
    rw [hrun, hevs]
    rfl
  · rcases hc : createZipArchive env (packagePathOf env.gopath env.packageName) mf
        (cacheDirOf env.gopath env.packageName sv.major) with ⟨res2, evs2⟩
    rcases res2 with e2 | u
    · have hrun : runMain env
          = (.fatal ("error creating zip archive: " ++ e2), evs ++ evs2) := by
        simp [runMain, h1, h2, hp, hg, hc]
      rw [hrun, producedFiles_append, writeFailureArtifacts_append, hevs,
        createZipArchive_error_artifacts env _ _ mf e2 evs2 hc]
      rfl
    · exfalso
      have hrun : runMain env = (.success, evs ++ evs2) := by
        simp [runMain, h1, h2, hp, hg, hc]
      rw [hrun] at h
      simp [Outcome.isFatal] at h

/-- Witness for the amended C4 at the concrete write-failure run: the only
artifact of this fatal run is the file left by the failed write. -/
theorem c4_fatal_artifacts_only_from_failed_write_witness :
    producedFiles (runMain envWriteFail).2
      = writeFailureArtifacts (runMain envWriteFail).2 :=
  c4_fatal_artifacts_only_from_failed_write envWriteFail (by decide)

/-- C5: whenever the pseudo-version, after stripping one optional leading
`v`, fails semantic-version parsing, the run is fatal and performs no
file-system action at all (in particular it writes no output file). -/
theorem c5_parse_failure_fatal (env : Env) (e : String)
    (h : semverParse (goTrimV env.pseudoVersion) = .error e) :
    ((runMain env).1).isFatal = true ∧ (runMain env).2 = [] := by
  by_cases h1 : env.packageName = ""
  · simp [runMain, h1, Outcome.isFatal]
  by_cases h2 : env.pseudoVersion = ""
  · simp [runMain, h1, h2, Outcome.isFatal]
  · simp [runMain, h1, h2, h, Outcome.isFatal]

/-- Witness for C5: `not-a-version` has no Major.Minor.Patch structure. -/
theorem c5_parse_failure_fatal_witness :
    ((runMain envBadVer).1).isFatal = true ∧ (runMain envBadVer).2 = [] :=
  c5_parse_failure_fatal envBadVer "No Major.Minor.Patch elements found" (by decide)

/-- C6: with either required flag empty the run is fatal and its event list
is empty: no file is opened, read or written before termination. -/
theorem c6_empty_flag_fatal_before_io (env : Env)
    (h : env.packageName = "" ∨ env.pseudoVersion = "") :
    ((runMain env).1).isFatal = true ∧ (runMain env).2 = [] := by
  rcases h with h | h
  · simp [runMain, h, Outcome.isFatal]
  · by_cases h1 : env.packageName = ""
    · simp [runMain, h1, Outcome.isFatal]
    · simp [runMain, h1, h, Outcome.isFatal]

/-- Witness for C6 at a concrete environment with an empty package name. -/
theorem c6_empty_flag_fatal_before_io_witness :
    ((runMain envNoPkg).1).isFatal = true ∧ (runMain envNoPkg).2 = [] :=
  c6_empty_flag_fatal_before_io envNoPkg (Or.inl (by decide))

/-- C7: when the descriptor at `Join(packagePath, "go.mod")` cannot be opened
(missing file) or cannot be read, the run is fatal with a wrapped error whose
message spells out that exact path, and the only event is the failed access —
no output file is written. -/
theorem c7_descriptor_io_error (env : Env) (sv : SemVer)
    (h1 : env.packageName ≠ "") (h2 : env.pseudoVersion ≠ "")
    (hparse : semverParse (goTrimV env.pseudoVersion) = .ok sv) :
    (∀ e, env.openFile (goModPathOf env.gopath env.packageName) = some e →
      runMain env = (.fatal ("error getting module file: " ++
          ("error opening " ++ goModPathOf env.gopath env.packageName ++ ": " ++ e)),
        [.openRead (goModPathOf env.gopath env.packageName)]))
    ∧ (∀ e, env.openFile (goModPathOf env.gopath env.packageName) = none →
        env.readAll (goModPathOf env.gopath env.packageName) = .error e →
      runMain env = (.fatal ("error getting module file: " ++
          ("error reading " ++ goModPathOf env.gopath env.packageName ++ ": " ++ e)),
        [.openRead (goModPathOf env.gopath env.packageName)])) := by
  constructor
  · intro e he
    simp only [goModPathOf] at he ⊢
    simp [runMain, getModuleFile, h1, h2, hparse, he]
  · intro e hn he
    simp only [goModPathOf] at hn he ⊢
    simp [runMain, getModuleFile, h1, h2, hparse, hn, he]

/-- Witness for C7 at a concrete environment where `go.mod` is missing. -/
theorem c7_descriptor_io_error_witness :
    runMain envOpenFail = (.fatal ("error getting module file: " ++
        ("error opening " ++ goModPathOf "/go" "example.com/foo" ++ ": "
          ++ "no such file or directory")),
      [.openRead (goModPathOf "/go" "example.com/foo")]) :=
  (c7_descriptor_io_error envOpenFail ⟨2, 3, 1, [], []⟩ (by decide) (by decide)
    (by decide)).1 "no such file or directory" (by decide)

/-- C8: a descriptor that parses but declares no module yields the explicit
`parsed module should not be nil` error from `getModuleFile`, and the run is
fatal with that wrapped message, writing nothing. -/
theorem c8_nil_module (env : Env) (sv : SemVer) (bs : List Nat)
    (h1 : env.packageName ≠ "") (h2 : env.pseudoVersion ≠ "")
    (hparse : semverParse (goTrimV env.pseudoVersion) = .ok sv)
    (hopen : env.openFile (goModPathOf env.gopath env.packageName) = none)
    (hread : env.readAll (goModPathOf env.gopath env.packageName) = .ok bs)
    (hmod : env.parseModFile (packagePathOf env.gopath env.packageName) bs
      = .ok ⟨none⟩) :
    (getModuleFile env (packagePathOf env.gopath env.packageName)
        env.pseudoVersion).1 = .error "parsed module should not be nil"
    ∧ runMain env
      = (.fatal "error getting module file: parsed module should not be nil",
        [.openRead (goModPathOf env.gopath env.packageName)]) := by
  simp only [goModPathOf] at hopen hread
  constructor
  · simp [getModuleFile, hopen, hread, hmod]
  · simp [runMain, getModuleFile, goModPathOf, h1, h2, hparse, hopen, hread, hmod]

/-- Witness for C8 at a concrete environment whose descriptor has no module
directive. -/
theorem c8_nil_module_witness :
    (getModuleFile envNilModule (packagePathOf "/go" "example.com/foo")
        "v2.3.1").1 = .error "parsed module should not be nil"
    ∧ runMain envNilModule
      = (.fatal "error getting module file: parsed module should not be nil",
        [.openRead (goModPathOf "/go" "example.com/foo")]) :=
  c8_nil_module envNilModule ⟨2, 3, 1, [], []⟩ [109, 111] (by decide) (by decide)
    (by decide) (by decide) (by decide) (by decide)

/-- C9: the run is a deterministic function of the flags, `$GOPATH` and the
file-system behavior; two environments that agree on those (an unchanged
source tree) but differ in any ambient state (`runId`) produce the same
outcome and the same events — in particular byte-identical output files at
the same path. -/
theorem c9_deterministic (e1 e2 : Env)
    (hpkg : e1.packageName = e2.packageName)
    (hver : e1.pseudoVersion = e2.pseudoVersion)
    (hgo : e1.gopath = e2.gopath)
    (hopen : e1.openFile = e2.openFile)
    (hread : e1.readAll = e2.readAll)
    (hparse : e1.parseModFile = e2.parseModFile)
    (hzip : e1.createFromDir = e2.createFromDir)
    (hwrite : e1.writeFile = e2.writeFile) :
    runMain e1 = runMain e2 := by
  cases e1
  cases e2
  dsimp only at hpkg hver hgo hopen hread hparse hzip hwrite
  subst hpkg hver hgo hopen hread hparse hzip hwrite
  rfl

/-- Witness for C9: two runs of the same invocation in different ambient
states. -/
theorem c9_deterministic_witness : runMain envV2 = runMain envV2Again :=
  c9_deterministic envV2 envV2Again rfl rfl rfl rfl rfl rfl rfl rfl

/-- C1: with a non-empty package name, a pseudo-version that parses as a
semantic version after stripping an optional leading `v`, and every external
step succeeding, the run performs exactly one write: the file at
`cacheDirOf gopath pkg major ++ "/" ++ version ++ ".zip"` — that is,
`<GOPATH>/pkg/mod/cache/download/<pkg>/@v[/v<major>]/<version>.zip`, the
`/v<major>` suffix only for parsed major version ≥ 2 — with permission bits
0644 (owner read/write, group/other read), and the source tree handed to
the zip builder is `<GOPATH>/src/<pkg>`.  The `hclean` hypothesis restricts
to inputs on which `filepath.Join`'s `Clean` is the identity (no `..`, `.`
or duplicate-slash segments in the computed path). -/
theorem c1_success_single_output (env : Env) (sv : SemVer) (m : ModuleIdent)
    (modBytes zipBytes : List Nat)
    (h1 : env.packageName ≠ "")
    (h2 : env.pseudoVersion ≠ "")
    (hparse : semverParse (goTrimV env.pseudoVersion) = .ok sv)
    (hopen : env.openFile (goModPathOf env.gopath env.packageName) = none)
    (hread : env.readAll (goModPathOf env.gopath env.packageName) = .ok modBytes)
    (hmod : env.parseModFile (packagePathOf env.gopath env.packageName) modBytes
      = .ok ⟨some m⟩)
    (hzip : env.createFromDir ⟨m.path, env.pseudoVersion⟩
      (packagePathOf env.gopath env.packageName) = .ok zipBytes)
    (hwrite : env.writeFile
      (zipPathOf env.gopath env.packageName env.pseudoVersion sv.major)
      zipBytes 0o644 = .success)
    (hclean : goClean (cacheDirOf env.gopath env.packageName sv.major
        ++ "/" ++ (env.pseudoVersion ++ ".zip"))
      = cacheDirOf env.gopath env.packageName sv.major
        ++ "/" ++ (env.pseudoVersion ++ ".zip")) :
    runMain env = (.success,
      [ .openRead (goModPathOf env.gopath env.packageName),
        .readTree ⟨m.path, env.pseudoVersion⟩
          (env.gopath ++ "/src/" ++ env.packageName),
        .write (cacheDirOf env.gopath env.packageName sv.major
            ++ "/" ++ (env.pseudoVersion ++ ".zip")) zipBytes 0o644 .success ])
    ∧ producedFiles (runMain env).2
      = [cacheDirOf env.gopath env.packageName sv.major
          ++ "/" ++ (env.pseudoVersion ++ ".zip")] := by
  have hzp := zipPathOf_of_clean env.gopath env.packageName env.pseudoVersion
    sv.major hclean
  simp only [goModPathOf] at hopen hread
  simp only [zipPathOf] at hwrite hzp
  have hgm := getModuleFile_success env (packagePathOf env.gopath env.packageName)
    env.pseudoVersion m modBytes hopen hread hmod
  have hca := createZipArchive_success env (packagePathOf env.gopath env.packageName)
    (cacheDirOf env.gopath env.packageName sv.major) ⟨m.path, env.pseudoVersion⟩
    zipBytes hzip hwrite
  have hrun : runMain env = (.success,
      [ .openRead (goModPathOf env.gopath env.packageName),
        .readTree ⟨m.path, env.pseudoVersion⟩
          (env.gopath ++ "/src/" ++ env.packageName),
        .write (cacheDirOf env.gopath env.packageName sv.major
            ++ "/" ++ (env.pseudoVersion ++ ".zip")) zipBytes 0o644 .success ]) := by
    simp only [packagePathOf] at hgm hca
    simp [runMain, h1, h2, hparse, hgm, hca, hzp, packagePathOf, goModPathOf]
  refine ⟨hrun, ?_⟩
  rw [hrun]
  rfl

/-- Witness for C1 at a concrete fully-successful invocation. -/
theorem c1_success_single_output_witness :
    runMain envV2 = (.success,
      [ .openRead (goModPathOf "/go" "example.com/foo"),
        .readTree ⟨"example.com/foo", "v2.3.1"⟩ ("/go" ++ "/src/" ++ "example.com/foo"),
        .write (cacheDirOf "/go" "example.com/foo" 2
            ++ "/" ++ ("v2.3.1" ++ ".zip")) [80, 75, 3, 4] 0o644 .success ])
    ∧ producedFiles (runMain envV2).2
      = [cacheDirOf "/go" "example.com/foo" 2 ++ "/" ++ ("v2.3.1" ++ ".zip")] :=
  c1_success_single_output envV2 ⟨2, 3, 1, [], []⟩ ⟨"example.com/foo", "v0.0.0-old"⟩
    [109, 111] [80, 75, 3, 4] (by decide) (by decide) (by decide) (by decide)
    (by decide) (by decide) (by decide) (by decide) (by decide)

/-- C2, counterexample: for package `example.com/foo` at `v2.3.1` (major 2)
the output directory the run actually writes into is
`.../example.com/foo/@v/v2` — the `/v2` segment comes AFTER `@v` — and not
`.../example.com/foo/v2/@v` as the claim states. -/
theorem c2_vmajor_counterexample :
    producedFiles (runMain envV2).2
      = ["/go/pkg/mod/cache/download/example.com/foo/@v/v2/v2.3.1.zip"]
    ∧ cacheDirOf "/go" "example.com/foo" 2
      = "/go/pkg/mod/cache/download/example.com/foo/@v/v2"
    ∧ cacheDirOf "/go" "example.com/foo" 2
      ≠ "/go/pkg/mod/cache/download/example.com/foo/v2/@v" := by
  decide

/-- C2, amended: for parsed major version ≥ 2 the computed output directory
(`cacheDir` in `main`, which the run's single write goes into) carries an
additional `/v<major>` segment appended AFTER the `@v` segment, so for
`example.com/foo` and `v2.3.1` it ends in `.../foo/@v/v2`; for major version
0 or 1 it is `.../foo/@v` with no extra segment. -/
theorem c2_vmajor_after_atv (gopath pkg : String) (major : Nat) :
    (major ≥ 2 → cacheDirOf gopath pkg major
      = gopath ++ "/pkg/mod/cache/download/" ++ pkg ++ "/@v" ++ "/v"
        ++ toString major)
    ∧ (major < 2 → cacheDirOf gopath pkg major
      = gopath ++ "/pkg/mod/cache/download/" ++ pkg ++ "/@v") := by
  constructor
  · intro h
    simp [cacheDirOf, h]
  · intro h
    have h' : ¬ (major ≥ 2) := by omega
    simp [cacheDirOf, h']

/-- Witness for the amended C2 at major versions 2 and 1. -/
theorem c2_vmajor_after_atv_witness :
    cacheDirOf "/go" "example.com/foo" 2
      = "/go" ++ "/pkg/mod/cache/download/" ++ "example.com/foo" ++ "/@v" ++ "/v"
        ++ toString 2
    ∧ cacheDirOf "/go" "example.com/foo" 1
      = "/go" ++ "/pkg/mod/cache/download/" ++ "example.com/foo" ++ "/@v" :=
  ⟨(c2_vmajor_after_atv "/go" "example.com/foo" 2).1 (by decide),
   (c2_vmajor_after_atv "/go" "example.com/foo" 1).2 (by decide)⟩

/-- C10: the raw caller-supplied pseudo-version — not the normalized parsed
form — is stamped into the descriptor handed to the zip builder and is the
output filename stem; the stripped/parsed form feeds only the major-version
path decision.  Concretely: `1.0.0` (no leading `v`) is accepted and yields
`1.0.0.zip`; `v1.0.0` yields `v1.0.0.zip` (the `v` is kept in the raw
stem); only a single lowercase `v` is stripped before parsing (`vv1.2.3`
trims to `v1.2.3`, `V1.0.0` is left alone and fails to parse). -/
theorem c10_raw_version_used (env : Env) (sv : SemVer) (m : ModuleIdent)
    (modBytes zipBytes : List Nat)
    (h1 : env.packageName ≠ "")
    (h2 : env.pseudoVersion ≠ "")
    (hparse : semverParse (goTrimV env.pseudoVersion) = .ok sv)
    (hopen : env.openFile (goModPathOf env.gopath env.packageName) = none)
    (hread : env.readAll (goModPathOf env.gopath env.packageName) = .ok modBytes)
    (hmod : env.parseModFile (packagePathOf env.gopath env.packageName) modBytes
      = .ok ⟨some m⟩)
    (hzip : env.createFromDir ⟨m.path, env.pseudoVersion⟩
      (packagePathOf env.gopath env.packageName) = .ok zipBytes)
    (hwrite : env.writeFile
      (zipPathOf env.gopath env.packageName env.pseudoVersion sv.major)
      zipBytes 0o644 = .success) :
    (runMain env).2
      = [ .openRead (goModPathOf env.gopath env.packageName),
          .readTree ⟨m.path, env.pseudoVersion⟩
            (packagePathOf env.gopath env.packageName),
          .write (goJoin (cacheDirOf env.gopath env.packageName sv.major)
            (env.pseudoVersion ++ ".zip")) zipBytes 0o644 .success ]
    ∧ goTrimV "vv1.2.3" = "v1.2.3"
    ∧ goTrimV "V1.0.0" = "V1.0.0"
    ∧ ((runMain { envV2 with pseudoVersion := "V1.0.0" }).1).isFatal = true
    ∧ producedFiles (runMain envNoV).2
      = ["/go/pkg/mod/cache/download/example.com/foo/@v/1.0.0.zip"]
    ∧ producedFiles (runMain envMajor1).2
      = ["/go/pkg/mod/cache/download/example.com/foo/@v/v1.0.0.zip"] := by
  refine ⟨?_, by decide, by decide, by decide, by decide, by decide⟩
  simp only [goModPathOf] at hopen hread
  simp only [zipPathOf] at hwrite
  have hgm := getModuleFile_success env (packagePathOf env.gopath env.packageName)
    env.pseudoVersion m modBytes hopen hread hmod
  have hca := createZipArchive_success env (packagePathOf env.gopath env.packageName)
    (cacheDirOf env.gopath env.packageName sv.major) ⟨m.path, env.pseudoVersion⟩
    zipBytes hzip hwrite
  simp only [packagePathOf] at hgm hca
  simp [runMain, h1, h2, hparse, hgm, hca, packagePathOf, goModPathOf]

/-- Witness for C10 at a concrete fully-successful invocation. -/
theorem c10_raw_version_used_witness :
    (runMain envV2).2
      = [ .openRead (goModPathOf "/go" "example.com/foo"),
          .readTree ⟨"example.com/foo", "v2.3.1"⟩
            (packagePathOf "/go" "example.com/foo"),
          .write (goJoin (cacheDirOf "/go" "example.com/foo" 2)
            ("v2.3.1" ++ ".zip")) [80, 75, 3, 4] 0o644 .success ]
    ∧ goTrimV "vv1.2.3" = "v1.2.3"
    ∧ goTrimV "V1.0.0" = "V1.0.0"
    ∧ ((runMain { envV2 with pseudoVersion := "V1.0.0" }).1).isFatal = true
    ∧ producedFiles (runMain envNoV).2
      = ["/go/pkg/mod/cache/download/example.com/foo/@v/1.0.0.zip"]
    ∧ producedFiles (runMain envMajor1).2
      = ["/go/pkg/mod/cache/download/example.com/foo/@v/v1.0.0.zip"] :=
  c10_raw_version_used envV2 ⟨2, 3, 1, [], []⟩ ⟨"example.com/foo", "v0.0.0-old"⟩
    [109, 111] [80, 75, 3, 4] (by decide) (by decide) (by decide) (by decide)
    (by decide) (by decide) (by decide) (by decide)

end GomodZip
